import Mathlib

/-!
Shallow embedding of the tarantool-python 0.3.2 binary codec
(`tarantool/request.py` and `tarantool/response.py`).

Bytes are modelled as `List Nat` (each element a byte value), Python `int`
values as `Int`/`Nat`, and fallible Python calls (raising `struct.error`,
`IndexError`, `OverflowError`, `ValueError`, `TypeError`, `DatabaseError`)
as `Option`/`Except` results.
-/

set_option maxRecDepth 8192

namespace Tarantool

/-- Little-endian byte list of width `w` for value `v` (the payload bytes
produced by Python `struct.pack` with formats such as "<L", "<Q"). -/
def toLE : Nat → Nat → List Nat
  | 0, _ => []
  | w + 1, v => v % 256 :: toLE w (v / 256)

/-- Little-endian value of a byte list (Python `struct.unpack` with "<L"/"<Q"
applied to the bytes). -/
def fromLE : List Nat → Nat
  | [] => 0
  | b :: rest => b + 256 * fromLE rest

theorem toLE_length (w v : Nat) : (toLE w v).length = w := by
  induction w generalizing v with
  | zero => rfl
  | succ w ih => simp [toLE, ih]

theorem fromLE_toLE (w v : Nat) (h : v < 256 ^ w) : fromLE (toLE w v) = v := by
  induction w generalizing v with
  | zero => simp [pow_zero] at h; simp [toLE, fromLE, h]
  | succ w ih =>
      have hd : v / 256 < 256 ^ w := by
        rw [Nat.div_lt_iff_lt_mul (by norm_num)]
        calc v < 256 ^ (w + 1) := h
        _ = 256 ^ w * 256 := by ring
      simp [toLE, fromLE, ih _ hd]
      omega

/-!
### Packing primitives from `tarantool/const.py`

`tarantool/const.py` is not part of the provided sources; the `struct_X`
packers below are modelled from the spec (§6: "All fixed-width integers are
little-endian") and the format implied by their names (`B` = unsigned byte,
`L` = little-endian u32, `Q` = little-endian u64).  Python `struct.pack`
raises `struct.error` when an argument is out of range, modelled as `none`.
-/

/-- Modelled from the spec: `struct_B.pack` from `tarantool/const.py`
(format "<B", one unsigned byte). -/
def struct_B_pack (a : Nat) : Option (List Nat) :=
  if a < 256 then some [a] else none

/-- Modelled from the spec: `struct_BB.pack` (format "<BB"). -/
def struct_BB_pack (a b : Nat) : Option (List Nat) :=
  if a < 256 ∧ b < 256 then some [a, b] else none

/-- Modelled from the spec: `struct_BBB.pack` (format "<BBB"). -/
def struct_BBB_pack (a b c : Nat) : Option (List Nat) :=
  if a < 256 ∧ b < 256 ∧ c < 256 then some [a, b, c] else none

/-- Modelled from the spec: `struct_BBBB.pack` (format "<BBBB"). -/
def struct_BBBB_pack (a b c d : Nat) : Option (List Nat) :=
  if a < 256 ∧ b < 256 ∧ c < 256 ∧ d < 256 then some [a, b, c, d] else none

/-- Modelled from the spec: `struct_BBBBB.pack` (format "<BBBBB"). -/
def struct_BBBBB_pack (a b c d e : Nat) : Option (List Nat) :=
  if a < 256 ∧ b < 256 ∧ c < 256 ∧ d < 256 ∧ e < 256 then
    some [a, b, c, d, e]
  else none

/-- Modelled from the spec: `struct_L.pack` (format "<L", u32 little-endian). -/
def struct_L_pack (a : Nat) : Option (List Nat) :=
  if a < 4294967296 then some (toLE 4 a) else none

/-- Modelled from the spec: `struct_LL.pack` (format "<LL"). -/
def struct_LL_pack (a b : Nat) : Option (List Nat) :=
  if a < 4294967296 ∧ b < 4294967296 then some (toLE 4 a ++ toLE 4 b) else none

/-- Modelled from the spec: `struct_LLL.pack` (format "<LLL"). -/
def struct_LLL_pack (a b c : Nat) : Option (List Nat) :=
  if a < 4294967296 ∧ b < 4294967296 ∧ c < 4294967296 then
    some (toLE 4 a ++ toLE 4 b ++ toLE 4 c)
  else none

/-- Modelled from the spec: `struct_LLLLL.pack` (format "<LLLLL"). -/
def struct_LLLLL_pack (a b c d e : Nat) : Option (List Nat) :=
  if a < 4294967296 ∧ b < 4294967296 ∧ c < 4294967296 ∧ d < 4294967296 ∧
      e < 4294967296 then
    some (toLE 4 a ++ toLE 4 b ++ toLE 4 c ++ toLE 4 d ++ toLE 4 e)
  else none

/-- Modelled from the spec: `struct_BL.pack` (format "<BL", byte then u32). -/
def struct_BL_pack (a b : Nat) : Option (List Nat) :=
  if a < 256 ∧ b < 4294967296 then some (a :: toLE 4 b) else none

/-- Modelled from the spec: `struct_LB.pack` (format "<LB", u32 then byte). -/
def struct_LB_pack (a b : Nat) : Option (List Nat) :=
  if a < 4294967296 ∧ b < 256 then some (toLE 4 a ++ [b]) else none

/-- Modelled from the spec: `struct_Q.pack` (format "<Q", u64 little-endian). -/
def struct_Q_pack (a : Nat) : Option (List Nat) :=
  if a < 18446744073709551616 then some (toLE 8 a) else none

/-!
### Request side: `tarantool/request.py`

The code targets Python 2 (`string_types` covers byte strings, `long` is
used), so a scalar value is either an integer or a byte string.
-/

/-- A Python scalar passed to the request encoders: an integer
(`int`/`long`) or a (byte) string. -/
inductive PyVal where
  | int (i : Int)
  | str (s : List Nat)
deriving DecidableEq, Repr

/-- Python `str(value)`: an integer renders as its decimal text (ASCII
bytes), a Python-2 byte string renders as itself. -/
def str_of : PyVal → List Nat
  | .int i => (toString i).data.map Char.toNat
  | .str s => s

namespace Request

/-- `Request._int_base128[val]`: one precomputed table entry
(`struct_B.pack(val) if val < 128 else
struct_BB.pack(val >> 7 & 0xff | 0x80, val & 0x7F)`). -/
def int_base128 (val : Nat) : Option (List Nat) :=
  if val < 128 then struct_B_pack val
  else struct_BB_pack (val >>> 7 &&& 0xff ||| 0x80) (val &&& 0x7F)

/-- `Request.pack_int_base128(value)`: LEB128-style encoding, most
significant 7-bit group first, continuation bit `0x80` on all but the last
byte; `OverflowError` (here `none`) for `value >= 1 << 35`. -/
def pack_int_base128 (value : Nat) : Option (List Nat) :=
  if value < 1 <<< 14 then
    int_base128 value
  else if value < 1 <<< 21 then
    struct_BBB_pack
      (value >>> 14 &&& 0xff ||| 0x80)
      (value >>> 7 &&& 0xff ||| 0x80)
      (value &&& 0x7F)
  else if value < 1 <<< 28 then
    struct_BBBB_pack
      (value >>> 21 &&& 0xff ||| 0x80)
      (value >>> 14 &&& 0xff ||| 0x80)
      (value >>> 7 &&& 0xff ||| 0x80)
      (value &&& 0x7F)
  else if value < 1 <<< 35 then
    struct_BBBBB_pack
      (value >>> 28 &&& 0xff ||| 0x80)
      (value >>> 21 &&& 0xff ||| 0x80)
      (value >>> 14 &&& 0xff ||| 0x80)
      (value >>> 7 &&& 0xff ||| 0x80)
      (value &&& 0x7F)
  else none

/-- `Request.pack_int(value)`: `struct_BL.pack(4, value)` — a one-byte
varint length prefix `4` followed by the 4-byte little-endian value.
Python `struct` raises for negative values, modelled by the `0 ≤ value`
guard. -/
def pack_int (value : Int) : Option (List Nat) :=
  if 0 ≤ value then struct_BL_pack 4 value.toNat else none

/-- `Request.pack_str(value)`: varint byte-length prefix followed by the
raw bytes. -/
def pack_str (value : List Nat) : Option (List Nat) :=
  match pack_int_base128 value.length with
  | none => none
  | some value_len_packed => some (value_len_packed ++ value)

/-- `Request.pack_field(value)`: dispatch on the value's type — byte
string → `pack_str`, integer → `pack_int`. -/
def pack_field : PyVal → Option (List Nat)
  | .str s => pack_str s
  | .int i => pack_int i

/-- The list comprehension `[cls.pack_field(v) for v in values]` of
`Request.pack_tuple`: packs each field in order, failing at the first
field that raises. -/
def pack_items : List PyVal → Option (List (List Nat))
  | [] => some []
  | v :: rest =>
    match pack_field v with
    | none => none
    | some f =>
      match pack_items rest with
      | none => none
      | some fs => some (f :: fs)

/-- `Request.pack_tuple(values)`: `<u32 cardinality><packed field>+`. -/
def pack_tuple (values : List PyVal) : Option (List Nat) :=
  match struct_L_pack values.length with
  | none => none
  | some cardinality =>
    match pack_items values with
    | none => none
    | some packed_items => some (cardinality ++ packed_items.flatten)

/-- `Request.header(body_length)`:
`struct_LLL.pack(request_type, body_length, 0)`. -/
def header (request_type body_length : Nat) : Option (List Nat) :=
  struct_LLL_pack request_type body_length 0

end Request

/-- Modelled from the spec: `REQUEST_TYPE_INSERT` from `tarantool/const.py`
(fixed numeric request-type tag, §4.3). -/
def REQUEST_TYPE_INSERT : Nat := 13

/-- Modelled from the spec: `REQUEST_TYPE_SELECT` from `tarantool/const.py`. -/
def REQUEST_TYPE_SELECT : Nat := 17

/-- Modelled from the spec: `REQUEST_TYPE_UPDATE` from `tarantool/const.py`. -/
def REQUEST_TYPE_UPDATE : Nat := 19

/-- Modelled from the spec: `REQUEST_TYPE_DELETE` from `tarantool/const.py`. -/
def REQUEST_TYPE_DELETE : Nat := 21

/-- Modelled from the spec: `REQUEST_TYPE_CALL` from `tarantool/const.py`. -/
def REQUEST_TYPE_CALL : Nat := 22

/-- Modelled from the spec: `UPDATE_OPERATION_CODE` from
`tarantool/const.py` — the fixed symbol table mapping an update-operation
symbol (assign, add, and, xor, or bit-ops, splice; spec §3) to its one-byte
operation code. -/
def UPDATE_OPERATION_CODE : String → Option Nat
  | "=" => some 0
  | "+" => some 1
  | "&" => some 2
  | "^" => some 3
  | "|" => some 4
  | "splice" => some 5
  | _ => none

/-- `RequestInsert.__init__`: request body
`struct_LL.pack(space_no, flags) + pack_tuple(values)`. -/
def requestInsert_body (space_no : Nat) (values : List PyVal)
    (return_tuple : Bool) : Option (List Nat) :=
  let flags := if return_tuple then 1 else 0
  match struct_LL_pack space_no flags with
  | none => none
  | some pre =>
    match Request.pack_tuple values with
    | none => none
    | some t => some (pre ++ t)

/-- `RequestInsert.__init__`: the full `_bytes`, header followed by body. -/
def requestInsert_bytes (space_no : Nat) (values : List PyVal)
    (return_tuple : Bool) : Option (List Nat) :=
  match requestInsert_body space_no values return_tuple with
  | none => none
  | some body =>
    match Request.header REQUEST_TYPE_INSERT body.length with
    | none => none
    | some h => some (h ++ body)

/-- A key argument to Delete/Update: a bare scalar (int or string) or an
explicit tuple; `__init__` normalizes a bare scalar to `(key,)`. -/
inductive UpdateKey where
  | scalar (v : PyVal)
  | tup (vs : List PyVal)
deriving DecidableEq, Repr

/-- The `if isinstance(key, (int,) + string_types): key = (key,)`
normalization shared by Delete and Update. -/
def UpdateKey.normalize : UpdateKey → List PyVal
  | .scalar v => [v]
  | .tup vs => vs

/-- `RequestUpdate.pack_operations(op_list)`: for each
`(field_no, op_symbol, op_arg)`, look up the one-byte operation code
(`ValueError`, i.e. `none`, for an unknown symbol) and emit
`struct_LB.pack(field_no, op_code) + pack_field(op_arg)`. -/
def pack_operations : List (Nat × String × PyVal) → Option (List Nat)
  | [] => some []
  | (field_no, op_symbol, op_arg) :: rest =>
    match UPDATE_OPERATION_CODE op_symbol with
    | none => none
    | some op_code =>
      match struct_LB_pack field_no op_code with
      | none => none
      | some lb =>
        match Request.pack_field op_arg with
        | none => none
        | some arg_packed =>
          match pack_operations rest with
          | none => none
          | some r => some (lb ++ arg_packed ++ r)

/-- `RequestUpdate.__init__`: request body
`struct_LL.pack(space_no, flags) + pack_tuple(key) +
struct_L.pack(len(op_list)) + pack_operations(op_list)` with the bare-key
normalization. -/
def requestUpdate_body (space_no : Nat) (key : UpdateKey)
    (op_list : List (Nat × String × PyVal)) (return_tuple : Bool) :
    Option (List Nat) :=
  let flags := if return_tuple then 1 else 0
  match struct_LL_pack space_no flags with
  | none => none
  | some pre =>
    match Request.pack_tuple key.normalize with
    | none => none
    | some keyt =>
      match struct_L_pack op_list.length with
      | none => none
      | some cnt =>
        match pack_operations op_list with
        | none => none
        | some ops => some (pre ++ keyt ++ cnt ++ ops)

/-- Specification-side helper for the Call-argument claim: one
length-prefixed text field (`pack_str` of the textual representation) per
argument, in order. -/
def pack_str_fields : List PyVal → Option (List (List Nat))
  | [] => some []
  | a :: rest =>
    match Request.pack_str (str_of a) with
    | none => none
    | some f =>
      match pack_str_fields rest with
      | none => none
      | some fs => some (f :: fs)

/-- `RequestCall.__init__`: request body
`struct_L.pack(flags) + pack_field(proc_name) +
pack_tuple(map(str, args))` — every argument is passed through `str`
before packing. -/
def requestCall_body (proc_name : List Nat) (args : List PyVal)
    (return_tuple : Bool) : Option (List Nat) :=
  let flags := if return_tuple then 1 else 0
  match struct_L_pack flags with
  | none => none
  | some fl =>
    match Request.pack_field (.str proc_name) with
    | none => none
    | some pr =>
      match Request.pack_tuple (args.map (fun a => PyVal.str (str_of a))) with
      | none => none
      | some t => some (fl ++ pr ++ t)

/-!
### Response side: `tarantool/response.py`
-/

namespace Response

/-- `field.__new__` applied to an integer value: 4-byte little-endian for
`0 <= value <= 0xFFFFFFFF`, 8-byte little-endian for
`0xFFFFFFFF < value <= 0xFFFFFFFFFFFFFFFF`, `ValueError` (here `none`)
otherwise. -/
def field_new (value : Int) : Option (List Nat) :=
  if 0 ≤ value ∧ value ≤ 0xFFFFFFFF then
    struct_L_pack value.toNat
  else if 0xFFFFFFFF < value ∧ value ≤ 0xFFFFFFFFFFFFFFFF then
    struct_Q_pack value.toNat
  else none

/-- `Response._unpack_int_base128(varint, offset)`: base-128 decoding,
reading up to five bytes; an out-of-range index (Python `IndexError`) is
`none`.  Returns the decoded value and the offset one past the last byte
read. -/
def unpack_int_base128 (varint : List Nat) (offset : Nat) :
    Option (Nat × Nat) :=
  match varint.get? offset with
  | none => none
  | some b0 =>
    if 0x80 ≤ b0 then
      match varint.get? (offset + 1) with
      | none => none
      | some b1 =>
        let r1 := ((b0 - 0x80) <<< 7) + b1
        if 0x80 ≤ b1 then
          match varint.get? (offset + 2) with
          | none => none
          | some b2 =>
            let r2 := ((r1 - 0x80) <<< 7) + b2
            if 0x80 ≤ b2 then
              match varint.get? (offset + 3) with
              | none => none
              | some b3 =>
                let r3 := ((r2 - 0x80) <<< 7) + b3
                if 0x80 ≤ b3 then
                  match varint.get? (offset + 4) with
                  | none => none
                  | some b4 => some (((r3 - 0x80) <<< 7) + b4, offset + 5)
                else some (r3, offset + 4)
            else some (r2, offset + 3)
        else some (r1, offset + 2)
    else some (b0, offset + 1)

/-- Errors raised while parsing a response body. -/
inductive UnpackErr where
  /-- `DatabaseError(return_code, return_message)`; the message keeps the
  raw bytes that Python decodes as lossy UTF-8. -/
  | databaseError (return_code : Nat) (return_message : List Nat)
  /-- Python `struct.error` (buffer too short for `unpack_from`). -/
  | structError
  /-- Python `IndexError` (byte index out of range). -/
  | indexError
deriving DecidableEq, Repr

/-- `Response._unpack_tuple`, inner loop: read `cardinality` fields, each a
varint byte-size followed by that many raw bytes. -/
def unpack_fields (buff : List Nat) (offset : Nat) :
    Nat → Except UnpackErr (List (List Nat))
  | 0 => .ok []
  | n + 1 =>
    match unpack_int_base128 buff offset with
    | none => .error .indexError
    | some (field_size, offset2) =>
      if offset2 + field_size ≤ buff.length then
        match unpack_fields buff (offset2 + field_size) n with
        | .error e => .error e
        | .ok rest => .ok ((buff.drop offset2).take field_size :: rest)
      else .error .structError

/-- `Response._unpack_tuple(buff)`: 4-byte little-endian cardinality, then
that many length-prefixed fields. -/
def unpack_tuple (buff : List Nat) : Except UnpackErr (List (List Nat)) :=
  if 4 ≤ buff.length then
    unpack_fields buff 4 (fromLE (buff.take 4))
  else .error .structError

/-- The row-parsing `while offset < body_length` loop of
`Response._unpack_body`: read a fixed32 stored size, add 4 for the
cardinality word to get `tuple_size`, take `tuple_size` bytes of tuple
data, decode them, and advance by `tuple_size + 4`. -/
def parse_rows (buff : List Nat) (offset body_length : Nat) :
    Except UnpackErr (List (List (List Nat))) :=
  if _h : offset < body_length then
    if offset + 4 ≤ buff.length then
      let tuple_size := fromLE ((buff.drop offset).take 4) + 4
      if offset + 4 + tuple_size ≤ buff.length then
        match unpack_tuple ((buff.drop (offset + 4)).take tuple_size) with
        | .error e => .error e
        | .ok tuple_value =>
          match parse_rows buff (offset + tuple_size + 4) body_length with
          | .error e => .error e
          | .ok rest => .ok (tuple_value :: rest)
      else .error .structError
    else .error .structError
  else .ok []
termination_by body_length - offset
decreasing_by omega

/-- The observable state of a parsed `Response` (attributes set by
`__init__`/`_unpack_body`); `none` models a Python attribute left `None`. -/
structure ResponseState where
  return_code : Option Nat
  completion_status : Option Nat
  return_message : Option (List Nat)
  rowcount : Option Nat
  rows : List (List (List Nat))
deriving DecidableEq, Repr

/-- `Response._unpack_body(buff)` given `self._body_length` from the
header: split the status word, attach the error message when
`return_code != 0`, raise `DatabaseError` when additionally
`completion_status == 2`, return early when `body_length == 8`, otherwise
read the rowcount and parse the rows. -/
def unpack_body (body_length : Nat) (buff : List Nat) :
    Except UnpackErr ResponseState :=
  if 4 ≤ buff.length then
    let word := fromLE (buff.take 4)
    let completion_status := word &&& 0x00ff
    let return_code := word >>> 8
    let return_message : Option (List Nat) :=
      if return_code ≠ 0 then some ((buff.drop 4).dropLast) else none
    if return_code ≠ 0 ∧ completion_status = 2 then
      .error (.databaseError return_code ((buff.drop 4).dropLast))
    else if body_length = 8 then
      .ok ⟨some return_code, some completion_status, return_message, none, []⟩
    else if 8 ≤ buff.length then
      let rowcount := fromLE ((buff.drop 4).take 4)
      if 0 < rowcount then
        match parse_rows buff 8 body_length with
        | .error e => .error e
        | .ok rows =>
          .ok ⟨some return_code, some completion_status, return_message,
            some rowcount, rows⟩
      else
        .ok ⟨some return_code, some completion_status, return_message,
          some rowcount, []⟩
    else .error .structError
  else .error .structError

/-- `Response.__init__(header, body)` (with `field_types=None`, which no
claim exercises): unpack the 12-byte header with `struct.unpack("<LLL")`
and, when the body is non-empty, parse it with `_unpack_body`. -/
def response_init (header body : List Nat) : Except UnpackErr ResponseState :=
  if header.length = 12 then
    let body_length := fromLE ((header.drop 4).take 4)
    if body = [] then .ok ⟨none, none, none, none, []⟩
    else unpack_body body_length body
  else .error .structError

end Response

/-!
### Decidability helper and arithmetic lemmas
-/

instance {ε α : Type} [DecidableEq ε] [DecidableEq α] :
    DecidableEq (Except ε α) := fun a b =>
  match a, b with
  | .error e, .error f =>
      if h : e = f then .isTrue (by rw [h]) else .isFalse (by simp [h])
  | .ok x, .ok y =>
      if h : x = y then .isTrue (by rw [h]) else .isFalse (by simp [h])
  | .error _, .ok _ => .isFalse (by simp)
  | .ok _, .error _ => .isFalse (by simp)

theorem and_255_eq_mod (v : Nat) : v &&& 255 = v % 256 := by
  have h := Nat.and_pow_two_sub_one_eq_mod v 8
  norm_num at h
  exact h

theorem and_127_eq_mod (v : Nat) : v &&& 127 = v % 128 := by
  have h := Nat.and_pow_two_sub_one_eq_mod v 7
  norm_num at h
  exact h

theorem or_128_small : ∀ v < 256, v ||| 128 = v % 128 + 128 := by decide

/-- The byte `value >> k & 0xff | 0x80` emitted by `pack_int_base128` is
the 7-bit group `value / 2^k % 128` with the continuation bit added. -/
theorem byte_hi (x k : Nat) :
    x >>> k &&& 255 ||| 128 = x / 2 ^ k % 128 + 128 := by
  rw [Nat.shiftRight_eq_div_pow, and_255_eq_mod,
    or_128_small _ (Nat.mod_lt _ (by norm_num)),
    Nat.mod_mod_of_dvd _ (by norm_num)]

/-!
### Shape lemmas for the varint codec
-/

namespace Response

theorem decode_one (b0 : Nat) (rest : List Nat) (h0 : b0 < 128) :
    unpack_int_base128 (b0 :: rest) 0 = some (b0, 1) := by
  have n0 : ¬ (128 ≤ b0) := by omega
  simp [unpack_int_base128, n0]

theorem decode_two (b0 b1 : Nat) (rest : List Nat) (h0 : 128 ≤ b0)
    (h1 : b1 < 128) :
    unpack_int_base128 (b0 :: b1 :: rest) 0 =
      some (((b0 - 128) <<< 7) + b1, 2) := by
  have n1 : ¬ (128 ≤ b1) := by omega
  simp [unpack_int_base128, h0, n1]

theorem decode_three (b0 b1 b2 : Nat) (rest : List Nat) (h0 : 128 ≤ b0)
    (h1 : 128 ≤ b1) (h2 : b2 < 128) :
    unpack_int_base128 (b0 :: b1 :: b2 :: rest) 0 =
      some (((((b0 - 128) <<< 7) + b1 - 128) <<< 7) + b2, 3) := by
  have n2 : ¬ (128 ≤ b2) := by omega
  simp [unpack_int_base128, h0, h1, n2]

theorem decode_four (b0 b1 b2 b3 : Nat) (rest : List Nat) (h0 : 128 ≤ b0)
    (h1 : 128 ≤ b1) (h2 : 128 ≤ b2) (h3 : b3 < 128) :
    unpack_int_base128 (b0 :: b1 :: b2 :: b3 :: rest) 0 =
      some (((((((b0 - 128) <<< 7) + b1 - 128) <<< 7) + b2 - 128) <<< 7)
        + b3, 4) := by
  have n3 : ¬ (128 ≤ b3) := by omega
  simp [unpack_int_base128, h0, h1, h2, n3]

theorem decode_five (b0 b1 b2 b3 b4 : Nat) (rest : List Nat)
    (h0 : 128 ≤ b0) (h1 : 128 ≤ b1) (h2 : 128 ≤ b2) (h3 : 128 ≤ b3) :
    unpack_int_base128 (b0 :: b1 :: b2 :: b3 :: b4 :: rest) 0 =
      some (((((((((b0 - 128) <<< 7) + b1 - 128) <<< 7) + b2 - 128) <<< 7)
        + b3 - 128) <<< 7) + b4, 5) := by
  simp [unpack_int_base128, h0, h1, h2, h3]

end Response

namespace Request

theorem pack_one (x : Nat) (h : x < 128) :
    pack_int_base128 x = some [x] := by
  have e14 : (1 <<< 14 : Nat) = 16384 := rfl
  rw [pack_int_base128, if_pos (show x < 1 <<< 14 by omega), int_base128,
    if_pos h, struct_B_pack, if_pos (by omega)]

theorem pack_two (x : Nat) (h0 : 128 ≤ x) (h1 : x < 16384) :
    pack_int_base128 x = some [x / 2 ^ 7 % 128 + 128, x % 128] := by
  have c : x < 1 <<< 14 := by
    have e : (1 <<< 14 : Nat) = 16384 := rfl
    omega
  rw [pack_int_base128, if_pos c, int_base128, if_neg (by omega),
    byte_hi, and_127_eq_mod, struct_BB_pack, if_pos (by omega)]

theorem pack_three (x : Nat) (h0 : 16384 ≤ x) (h1 : x < 2097152) :
    pack_int_base128 x =
      some [x / 2 ^ 14 % 128 + 128, x / 2 ^ 7 % 128 + 128, x % 128] := by
  have e14 : (1 <<< 14 : Nat) = 16384 := rfl
  have e21 : (1 <<< 21 : Nat) = 2097152 := rfl
  rw [pack_int_base128, if_neg (by omega), if_pos (by omega),
    byte_hi, byte_hi, and_127_eq_mod, struct_BBB_pack, if_pos (by omega)]

theorem pack_four (x : Nat) (h0 : 2097152 ≤ x) (h1 : x < 268435456) :
    pack_int_base128 x =
      some [x / 2 ^ 21 % 128 + 128, x / 2 ^ 14 % 128 + 128,
        x / 2 ^ 7 % 128 + 128, x % 128] := by
  have e14 : (1 <<< 14 : Nat) = 16384 := rfl
  have e21 : (1 <<< 21 : Nat) = 2097152 := rfl
  have e28 : (1 <<< 28 : Nat) = 268435456 := rfl
  rw [pack_int_base128, if_neg (by omega), if_neg (by omega),
    if_pos (by omega), byte_hi, byte_hi, byte_hi, and_127_eq_mod,
    struct_BBBB_pack, if_pos (by omega)]

theorem pack_five (x : Nat) (h0 : 268435456 ≤ x) (h1 : x < 34359738368) :
    pack_int_base128 x =
      some [x / 2 ^ 28 % 128 + 128, x / 2 ^ 21 % 128 + 128,
        x / 2 ^ 14 % 128 + 128, x / 2 ^ 7 % 128 + 128, x % 128] := by
  have e14 : (1 <<< 14 : Nat) = 16384 := rfl
  have e21 : (1 <<< 21 : Nat) = 2097152 := rfl
  have e28 : (1 <<< 28 : Nat) = 268435456 := rfl
  have e35 : (1 <<< 35 : Nat) = 34359738368 := rfl
  rw [pack_int_base128, if_neg (by omega), if_neg (by omega),
    if_neg (by omega), if_pos (by omega), byte_hi, byte_hi, byte_hi,
    byte_hi, and_127_eq_mod, struct_BBBBB_pack, if_pos (by omega)]

theorem pack_overflow (x : Nat) (h : 34359738368 ≤ x) :
    pack_int_base128 x = none := by
  have e14 : (1 <<< 14 : Nat) = 16384 := rfl
  have e21 : (1 <<< 21 : Nat) = 2097152 := rfl
  have e28 : (1 <<< 28 : Nat) = 268435456 := rfl
  have e35 : (1 <<< 35 : Nat) = 34359738368 := rfl
  rw [pack_int_base128, if_neg (by omega), if_neg (by omega),
    if_neg (by omega), if_neg (by omega)]

end Request

/-!
### Error-shape lemmas: row parsing can only fail with a struct/index
error, never with a `DatabaseError`
-/

namespace Response

theorem unpack_fields_no_db (buff : List Nat) (offset n : Nat) (c : Nat)
    (m : List Nat) :
    unpack_fields buff offset n ≠ .error (.databaseError c m) := by
  induction n generalizing offset with
  | zero => simp [unpack_fields]
  | succ k ih =>
    rw [unpack_fields]
    split
    · simp
    · split
      · split
        · rename_i e he
          intro hc
          injection hc with heq
          rw [heq] at he
          exact ih _ he
        · simp
      · simp

theorem unpack_tuple_no_db (buff : List Nat) (c : Nat) (m : List Nat) :
    unpack_tuple buff ≠ .error (.databaseError c m) := by
  rw [unpack_tuple]
  split
  · exact unpack_fields_no_db _ _ _ _ _
  · simp

theorem parse_rows_no_db_aux (gap : Nat) :
    ∀ buff offset body_length, body_length - offset ≤ gap → ∀ c m,
      parse_rows buff offset body_length ≠ .error (.databaseError c m) := by
  induction gap with
  | zero =>
    intro buff off bl hg c m
    rw [parse_rows.eq_def, dif_neg (by omega)]
    simp
  | succ g ih =>
    intro buff off bl hg c m
    rw [parse_rows.eq_def]
    by_cases hlt : off < bl
    · rw [dif_pos hlt]
      by_cases h4 : off + 4 ≤ buff.length
      · rw [if_pos h4]
        by_cases hsz :
            off + 4 + (fromLE ((buff.drop off).take 4) + 4) ≤ buff.length
        · rw [if_pos hsz]
          split
          · rename_i e ht
            intro hc
            injection hc with heq
            rw [heq] at ht
            exact unpack_tuple_no_db _ _ _ ht
          · rename_i t ht
            split
            · rename_i e hrec
              intro hc
              injection hc with heq
              rw [heq] at hrec
              exact ih buff _ bl (by omega) c m hrec
            · simp
        · rw [if_neg hsz]
          simp
      · rw [if_neg h4]
        simp
    · rw [dif_neg hlt]
      simp

theorem parse_rows_no_db (buff : List Nat) (offset body_length : Nat)
    (c : Nat) (m : List Nat) :
    parse_rows buff offset body_length ≠ .error (.databaseError c m) :=
  parse_rows_no_db_aux (body_length - offset) buff offset body_length
    le_rfl c m

end Response

/-!
### Claim theorems
-/

/-- C5: encoding the Insert request with `space_no = 0`,
`values = (1, b"hello")`, `return_tuple = False` produces the 12-byte
header `<request_type=INSERT><body_length=23><request_id=0>` followed by
the body `<u32 space_no=0><u32 flags=0><u32 cardinality=2>`
`<varint 4><4-byte LE 1><varint 5>hello`. -/
theorem insert_scenario :
    requestInsert_bytes 0 [.int 1, .str [104, 101, 108, 108, 111]] false =
      some (toLE 4 REQUEST_TYPE_INSERT ++ toLE 4 23 ++ toLE 4 0 ++
        (toLE 4 0 ++ toLE 4 0 ++
          (toLE 4 2 ++ ([4] ++ toLE 4 1) ++
            ([5] ++ [104, 101, 108, 108, 111])))) := by decide

/-- C6 counterexample: with `space_no = 0` and `return_tuple = False`, the
Update body does not contain `<varint 1><4-byte 42>` for the key field —
the varint length prefix of a packed integer key is `4` (its byte length),
not `1`. -/
theorem update_key_prefix_counterexample :
    requestUpdate_body 0 (.scalar (.int 42)) [(0, "+", .int 5)] false ≠
      some (toLE 4 0 ++ toLE 4 0 ++ (toLE 4 1 ++ ([1] ++ toLE 4 42)) ++
        toLE 4 1 ++ (toLE 4 0 ++ [1]) ++ ([4] ++ toLE 4 5)) := by decide

/-- C6 (amended): an Update request with `op_list = [(0, "+", 5)]` and
bare key `42` produces the body `<u32 space_no><u32 flags>`
`<u32 cardinality=1><varint 4><4-byte 42><u32 op_count=1><u32 field_no=0>`
`<u8 op_code for "+"><varint 4><4-byte 5>`: the bare integer key is
normalized to a single-element tuple, and each operation is a u32 field
number, the one-byte operation code from the fixed symbol table, and the
length-prefixed argument field. -/
theorem update_scenario (space_no : Nat) (h : space_no < 4294967296)
    (return_tuple : Bool) :
    requestUpdate_body space_no (.scalar (.int 42)) [(0, "+", .int 5)]
      return_tuple =
    some (toLE 4 space_no ++ toLE 4 (if return_tuple then 1 else 0) ++
      (toLE 4 1 ++ ([4] ++ toLE 4 42)) ++ toLE 4 1 ++
      (toLE 4 0 ++ [1]) ++ ([4] ++ toLE 4 5)) := by
  have hkey : Request.pack_tuple (UpdateKey.normalize (.scalar (.int 42))) =
      some [1, 0, 0, 0, 4, 42, 0, 0, 0] := by decide
  have hops : pack_operations [(0, "+", .int 5)] =
      some [0, 0, 0, 0, 1, 4, 5, 0, 0, 0] := by decide
  have hcnt : struct_L_pack 1 = some [1, 0, 0, 0] := by decide
  cases return_tuple <;>
    simp [requestUpdate_body, hkey, hops, hcnt, struct_LL_pack, h, toLE]

/-- C6 witness: the amended Update scenario evaluated at `space_no = 0`,
`return_tuple = False`. -/
theorem update_scenario_witness :
    requestUpdate_body 0 (.scalar (.int 42)) [(0, "+", .int 5)] false =
      some [0, 0, 0, 0, 0, 0, 0, 0, 1, 0, 0, 0, 4, 42, 0, 0, 0,
        1, 0, 0, 0, 0, 0, 0, 0, 1, 4, 5, 0, 0, 0] := by
  have h := update_scenario 0 (by decide) false
  exact h.trans (by decide)

/-- C7 counterexample: a body that is exactly the 4-byte status word
`0x00000200` (so the header's `body_length` is 4) does not produce a
Response — the parser goes on to read a rowcount at offset 4 and fails
with a `struct.error`, though indeed no `DatabaseError` is raised. -/
theorem status_word_only_counterexample :
    Response.unpack_body 4 [0, 2, 0, 0] =
      .error Response.UnpackErr.structError := by decide

/-- C7 (amended): decoding a body consisting only of the status word
`0x00000200` (`completion_status = 0`, `return_code = 2`) raises no
`DatabaseError`, but with the consistent `body_length = 4` the
construction fails with a `struct.error` reading the absent rowcount; the
claimed Response with `return_code = 2`, `completion_status = 0` and
`rowcount = None` is produced only when the header declares
`body_length = 8`. -/
theorem status_word_only_body :
    Response.unpack_body 4 [0, 2, 0, 0] =
      .error Response.UnpackErr.structError ∧
    Response.unpack_body 8 [0, 2, 0, 0] =
      .ok ⟨some 2, some 0, some [], none, []⟩ := by decide

/-- C8 counterexample: constructing a Response from a 12-byte header and
an empty body leaves `return_code` unset (`None`), which is not `0`. -/
theorem empty_body_return_code_counterexample :
    Response.response_init [17, 0, 0, 0, 0, 0, 0, 0, 0, 0, 0, 0] [] =
      .ok ⟨none, none, none, none, []⟩ ∧
    (Response.ResponseState.mk none none none none []).return_code ≠
      some 0 := by decide

/-- C8 (amended): for every 12-byte header, constructing a Response with
an empty body buffer yields a Response with zero rows and an unset
(`None`) `return_code` — not `return_code = 0`. -/
theorem empty_body_response (hdr : List Nat) (h : hdr.length = 12) :
    Response.response_init hdr [] = .ok ⟨none, none, none, none, []⟩ := by
  rw [Response.response_init, if_pos h, if_pos rfl]

/-- C8 witness: the empty-body construction at a concrete header. -/
theorem empty_body_response_witness :
    Response.response_init [13, 0, 0, 0, 8, 0, 0, 0, 0, 0, 0, 0] [] =
      .ok ⟨none, none, none, none, []⟩ :=
  empty_body_response [13, 0, 0, 0, 8, 0, 0, 0, 0, 0, 0, 0] (by decide)

/-- C3 counterexample: a body whose status word has `completion_status = 1`
and `return_code = 1` followed by bytes that happen to parse as a rowcount
and one tuple: construction succeeds with the message attached but the
Response DOES contain a row, contradicting "contains no rows". -/
theorem retry_status_rows_counterexample :
    Response.unpack_body 18
      [1, 1, 0, 0, 1, 0, 0, 0, 2, 0, 0, 0, 1, 0, 0, 0, 1, 97] =
      .ok ⟨some 1, some 1, some [1, 0, 0, 0, 2, 0, 0, 0, 1, 0, 0, 0, 1],
        some 1, [[[97]]]⟩ ∧
    ([[[97]]] : List (List (List Nat))) ≠ [] := by
  constructor
  · simp [Response.unpack_body, Response.parse_rows, Response.unpack_tuple,
      Response.unpack_fields, Response.unpack_int_base128, fromLE,
      and_255_eq_mod]
  · simp

/-- C3 (amended): for every body (with header `body_length`) whose status
word has `return_code ≠ 0`: if `completion_status = 2`, parsing raises
`DatabaseError` carrying that return code and the message bytes
`buff[4:-1]` (lossily UTF-8-decoded by Python), with no rows parsed; if
`completion_status = 1`, no `DatabaseError` is ever raised and the message
is attached, but body parsing continues — the Response is guaranteed to
have no rows only when `body_length = 8`, a longer body being further
parsed for a rowcount and rows. -/
theorem error_status_handling (body_length : Nat) (buff : List Nat)
    (h4 : 4 ≤ buff.length)
    (hrc : fromLE (buff.take 4) >>> 8 ≠ 0) :
    (fromLE (buff.take 4) &&& 255 = 2 →
      Response.unpack_body body_length buff =
        .error (.databaseError (fromLE (buff.take 4) >>> 8)
          ((buff.drop 4).dropLast))) ∧
    (fromLE (buff.take 4) &&& 255 = 1 →
      (∀ c m, Response.unpack_body body_length buff ≠
        .error (.databaseError c m)) ∧
      (body_length = 8 →
        Response.unpack_body body_length buff =
          .ok ⟨some (fromLE (buff.take 4) >>> 8), some 1,
            some ((buff.drop 4).dropLast), none, []⟩)) := by
  refine ⟨fun h2 => ?_, fun h1 => ⟨fun c m => ?_, fun h8 => ?_⟩⟩
  · simp only [Response.unpack_body]
    rw [if_pos h4, if_pos ⟨hrc, h2⟩]
  · simp only [Response.unpack_body]
    rw [if_pos h4, if_neg (fun hc => by omega)]
    by_cases h8 : body_length = 8
    · rw [if_pos h8]
      simp
    · rw [if_neg h8]
      by_cases hl8 : 8 ≤ buff.length
      · rw [if_pos hl8]
        by_cases hrow : 0 < fromLE ((buff.drop 4).take 4)
        · rw [if_pos hrow]
          split
          · rename_i e hp
            intro hc
            injection hc with heq
            rw [heq] at hp
            exact Response.parse_rows_no_db _ _ _ _ _ hp
          · simp
        · rw [if_neg hrow]
          simp
      · rw [if_neg hl8]
        simp
  · subst h8
    simp only [Response.unpack_body]
    rw [if_pos h4, if_neg (fun hc => by omega)]
    simp [hrc, h1]

/-- C3 witness: the hard-error branch at a concrete body (status word
`0x00000102`: `completion_status = 2`, `return_code = 1`) and the
retry-hint branch at a concrete `body_length = 8` body (status word
`0x00000101`). -/
theorem error_status_handling_witness :
    Response.unpack_body 6 [2, 1, 0, 0, 7, 8] =
      .error (.databaseError 1 [7]) ∧
    Response.unpack_body 8 [1, 1, 0, 0, 9] =
      .ok ⟨some 1, some 1, some [], none, []⟩ := by
  constructor
  · have h := (error_status_handling 6 [2, 1, 0, 0, 7, 8] (by decide)
      (by decide)).1 (by decide)
    exact h.trans (by decide)
  · have h := ((error_status_handling 8 [1, 1, 0, 0, 9] (by decide)
      (by decide)).2 (by decide)).2 rfl
    exact h.trans (by decide)

/-- C4: the row loop of `_unpack_body` reads a fixed32 stored tuple size
`S`, takes the following `S + 4` bytes as one encoded tuple (`S` excludes
the 4-byte cardinality prefix), decodes it, and continues at
`offset + S + 8`; consequently the concrete Select body carrying two
tuples of cardinality 1 and 2 decodes into exactly those 2 rows in input
order. -/
theorem rows_loop (buff : List Nat) (offset body_length S : Nat)
    (hS : S = fromLE ((buff.drop offset).take 4))
    (hlt : offset < body_length)
    (hin : offset + 4 ≤ buff.length)
    (hsz : offset + 4 + (S + 4) ≤ buff.length) :
    (Response.parse_rows buff offset body_length =
      match Response.unpack_tuple ((buff.drop (offset + 4)).take (S + 4)) with
      | .error e => .error e
      | .ok tuple_value =>
        match Response.parse_rows buff (offset + S + 8) body_length with
        | .error e => .error e
        | .ok rest => .ok (tuple_value :: rest)) ∧
    Response.unpack_body 30
      [0, 0, 0, 0, 2, 0, 0, 0, 2, 0, 0, 0, 1, 0, 0, 0, 1, 170,
        4, 0, 0, 0, 2, 0, 0, 0, 1, 187, 1, 204] =
      .ok ⟨some 0, some 0, none, some 2, [[[170]], [[187], [204]]]⟩ := by
  constructor
  · subst hS
    rw [Response.parse_rows.eq_def, dif_pos hlt, if_pos hin, if_pos hsz]
    have e : offset + (fromLE ((buff.drop offset).take 4) + 4) + 4 =
        offset + fromLE ((buff.drop offset).take 4) + 8 := by omega
    rw [e]
  · simp [Response.unpack_body, Response.parse_rows, Response.unpack_tuple,
      Response.unpack_fields, Response.unpack_int_base128, fromLE]

/-- C4 witness: the loop equation applied at the first tuple of the
concrete two-tuple body, then evaluated to the two decoded rows. -/
theorem rows_loop_witness :
    Response.parse_rows
      [0, 0, 0, 0, 2, 0, 0, 0, 2, 0, 0, 0, 1, 0, 0, 0, 1, 170,
        4, 0, 0, 0, 2, 0, 0, 0, 1, 187, 1, 204] 8 30 =
      .ok [[[170]], [[187], [204]]] := by
  have h := (rows_loop
    [0, 0, 0, 0, 2, 0, 0, 0, 2, 0, 0, 0, 1, 0, 0, 0, 1, 170,
      4, 0, 0, 0, 2, 0, 0, 0, 1, 187, 1, 204] 8 30 2
    (by decide) (by decide) (by decide) (by decide)).1
  rw [h]
  simp [Response.parse_rows, Response.unpack_tuple, Response.unpack_fields,
    Response.unpack_int_base128, fromLE]

/-- C2: for every `x` in `[0, 2^35 - 1]`, decoding the varint encoding of
`x` at offset 0 yields `(x, number of encoded bytes)`, and every
`x ≥ 2^35` makes the encoder raise the overflow error. -/
theorem varint_roundtrip (x : Nat) :
    (x < 34359738368 →
      ∃ e, Request.pack_int_base128 x = some e ∧
        Response.unpack_int_base128 e 0 = some (x, e.length)) ∧
    (34359738368 ≤ x → Request.pack_int_base128 x = none) := by
  constructor
  · intro hx
    by_cases h1 : x < 128
    · exact ⟨[x], Request.pack_one x h1,
        by simp [Response.decode_one x [] h1]⟩
    · by_cases h2 : x < 16384
      · refine ⟨_, Request.pack_two x (by omega) h2, ?_⟩
        rw [Response.decode_two _ _ [] (by omega) (by omega)]
        norm_num [Nat.shiftLeft_eq]
        omega
      · by_cases h3 : x < 2097152
        · refine ⟨_, Request.pack_three x (by omega) h3, ?_⟩
          rw [Response.decode_three _ _ _ [] (by omega) (by omega) (by omega)]
          norm_num [Nat.shiftLeft_eq]
          omega
        · by_cases h4 : x < 268435456
          · refine ⟨_, Request.pack_four x (by omega) h4, ?_⟩
            rw [Response.decode_four _ _ _ _ [] (by omega) (by omega)
              (by omega) (by omega)]
            norm_num [Nat.shiftLeft_eq]
            omega
          · refine ⟨_, Request.pack_five x (by omega) hx, ?_⟩
            rw [Response.decode_five _ _ _ _ _ [] (by omega) (by omega)
              (by omega) (by omega)]
            norm_num [Nat.shiftLeft_eq]
            omega
  · exact Request.pack_overflow x

/-- C2 witness: the round trip at a five-byte value and the overflow at
`2^35`. -/
theorem varint_roundtrip_witness :
    (∃ e, Request.pack_int_base128 5000000000 = some e ∧
      Response.unpack_int_base128 e 0 = some (5000000000, e.length)) ∧
    Request.pack_int_base128 34359738368 = none :=
  ⟨(varint_roundtrip 5000000000).1 (by norm_num),
   (varint_roundtrip 34359738368).2 (by norm_num)⟩

/-- C10: whenever the varint decoder succeeds it has consumed between 1
and 5 bytes (the returned offset exceeds the input offset by that much),
and the fifth byte is always treated as final: even with its continuation
bit set it is added whole into the returned value rather than reported as
an error. -/
theorem varint_decode_consumption :
    (∀ varint offset value next,
      Response.unpack_int_base128 varint offset = some (value, next) →
      offset < next ∧ next ≤ offset + 5) ∧
    (∀ b0 b1 b2 b3 b4 rest, 128 ≤ b0 → 128 ≤ b1 → 128 ≤ b2 → 128 ≤ b3 →
      Response.unpack_int_base128
        (b0 :: b1 :: b2 :: b3 :: b4 :: rest) 0 =
        some (((((((((b0 - 128) <<< 7) + b1 - 128) <<< 7) + b2 - 128)
          <<< 7) + b3 - 128) <<< 7) + b4, 5)) := by
  constructor
  · intro varint offset value next h
    simp only [Response.unpack_int_base128] at h
    repeat' split at h
    all_goals cases h
    all_goals omega
  · exact fun b0 b1 b2 b3 b4 rest h0 h1 h2 h3 =>
      Response.decode_five b0 b1 b2 b3 b4 rest h0 h1 h2 h3

/-- C10 witness: the consumption bound at a one-byte decode, and the
fifth-byte behavior at `[0x80, 0x80, 0x80, 0x80, 0xFF]`, which decodes to
255 in exactly 5 bytes. -/
theorem varint_decode_consumption_witness :
    (0 < 1 ∧ 1 ≤ 0 + 5) ∧
    Response.unpack_int_base128 [128, 128, 128, 128, 255] 0 =
      some (255, 5) := by
  constructor
  · exact varint_decode_consumption.1 [0] 0 0 1 (by decide)
  · have h := varint_decode_consumption.2 128 128 128 128 255 []
      (by decide) (by decide) (by decide) (by decide)
    exact h.trans (by decide)

/-- C1 counterexample: on the request-encoding side, `pack_int` at
`v = 0x100000000` raises a `struct.error` instead of producing the 8-byte
little-endian payload the claim asserts, while the field-construction side
does produce the 8-byte form. -/
theorem pack_int_overflow_counterexample :
    Request.pack_int 4294967296 = none ∧
    Response.field_new 4294967296 = some (toLE 8 4294967296) := by decide

/-- C1 (amended): the magnitude dispatch (4-byte little-endian payload for
`0 ≤ v ≤ 2^32 - 1`, 8-byte for `2^32 ≤ v ≤ 2^64 - 1`, error above) holds
on the field-construction side; the request-encoding side
(`pack_int`/`pack_field`) emits the varint-4-prefixed 4-byte form for
`0 ≤ v ≤ 2^32 - 1` but raises an error — never the 8-byte form — for
`v ≥ 2^32`. -/
theorem int_width_dispatch (v : Int) :
    (0 ≤ v → v ≤ 4294967295 →
      Response.field_new v = some (toLE 4 v.toNat) ∧
      (toLE 4 v.toNat).length = 4 ∧
      fromLE (toLE 4 v.toNat) = v.toNat ∧
      Request.pack_int v = some (4 :: toLE 4 v.toNat)) ∧
    (4294967295 < v → v ≤ 18446744073709551615 →
      Response.field_new v = some (toLE 8 v.toNat) ∧
      (toLE 8 v.toNat).length = 8 ∧
      fromLE (toLE 8 v.toNat) = v.toNat ∧
      Request.pack_int v = none) ∧
    (18446744073709551615 < v → Response.field_new v = none) := by
  refine ⟨fun h0 h1 => ⟨?_, toLE_length 4 _, ?_, ?_⟩,
    fun h0 h1 => ⟨?_, toLE_length 8 _, ?_, ?_⟩, fun h0 => ?_⟩
  · rw [Response.field_new, if_pos ⟨h0, h1⟩, struct_L_pack,
      if_pos (by omega)]
  · exact fromLE_toLE 4 _ (by
      have e : (256 : Nat) ^ 4 = 4294967296 := by norm_num
      omega)
  · rw [Request.pack_int, if_pos h0, struct_BL_pack,
      if_pos ⟨by norm_num, by omega⟩]
  · rw [Response.field_new, if_neg (fun hc => by omega),
      if_pos ⟨by omega, h1⟩, struct_Q_pack, if_pos (by omega)]
  · exact fromLE_toLE 8 _ (by
      have e : (256 : Nat) ^ 8 = 18446744073709551616 := by norm_num
      omega)
  · rw [Request.pack_int, if_pos (by omega), struct_BL_pack,
      if_neg (fun hc => by omega)]
  · rw [Response.field_new, if_neg (fun hc => by omega),
      if_neg (fun hc => by omega)]

/-- C1 witness: both branches at the boundary values `2^32 - 1`, `2^32`
and `2^64`. -/
theorem int_width_dispatch_witness :
    Request.pack_int 4294967295 =
      some (4 :: toLE 4 (4294967295 : Int).toNat) ∧
    Response.field_new 4294967296 = some (toLE 8 (4294967296 : Int).toNat) ∧
    Response.field_new 18446744073709551616 = none :=
  ⟨((int_width_dispatch 4294967295).1 (by norm_num) (by norm_num)).2.2.2,
   ((int_width_dispatch 4294967296).2.1 (by norm_num) (by norm_num)).1,
   (int_width_dispatch 18446744073709551616).2.2 (by norm_num)⟩

theorem pack_items_map_str (args : List PyVal) :
    Request.pack_items (args.map (fun a => PyVal.str (str_of a))) =
      pack_str_fields args := by
  induction args with
  | nil => rfl
  | cons a rest ih =>
    simp [Request.pack_items, pack_str_fields, Request.pack_field, ih]

/-- C9: for every Call request, every supplied argument is coerced to its
textual representation (`str_of`) before being encoded, so the encoded
argument tuple consists of the u32 cardinality followed by one
length-prefixed text field (`pack_str` of the textual form) per argument,
regardless of the arguments' original types. -/
theorem call_args_text (proc_name : List Nat) (args : List PyVal)
    (return_tuple : Bool) :
    requestCall_body proc_name args return_tuple =
      match struct_L_pack (if return_tuple then 1 else 0) with
      | none => none
      | some fl =>
        match Request.pack_str proc_name with
        | none => none
        | some pr =>
          match struct_L_pack args.length with
          | none => none
          | some cardinality =>
            match pack_str_fields args with
            | none => none
            | some fields =>
              some (fl ++ pr ++ (cardinality ++ fields.flatten)) := by
  cases hfl : struct_L_pack (if return_tuple then 1 else 0) with
  | none => simp [requestCall_body, hfl]
  | some fl =>
    cases hpr : Request.pack_str proc_name with
    | none => simp [requestCall_body, hfl, hpr, Request.pack_field]
    | some pr =>
      cases hcd : struct_L_pack args.length with
      | none =>
        simp [requestCall_body, hfl, hpr, hcd, Request.pack_field,
          Request.pack_tuple, List.length_map]
      | some cardinality =>
        cases hmm : pack_str_fields args with
        | none =>
          simp [requestCall_body, hfl, hpr, hcd, hmm, Request.pack_field,
            Request.pack_tuple, List.length_map, pack_items_map_str]
        | some fields =>
          simp [requestCall_body, hfl, hpr, hcd, hmm, Request.pack_field,
            Request.pack_tuple, List.length_map, pack_items_map_str]

end Tarantool
